import Mathlib

/-!
Verification of the Birdeye gateway (src/main.py): a shallow embedding of the
request-forwarding helper, the route handlers, and (modelled from the spec)
the rate gate, together with theorems settling the spec's claims.
-/

namespace Birdeye

/-- JSON values, as produced by parsing a response body
(the result of `response.json()` at src/main.py line 58).
Python JSON numbers may also be floats; the claims treat JSON bodies
opaquely, so an integer constructor suffices here. -/
inductive Json where
  | null
  | bool (b : Bool)
  | num (n : Int)
  | str (s : String)
  | arr (elems : List Json)
  | obj (fields : List (String × Json))

/-- A query-parameter value: the handlers put strings and (unbounded Python)
integers into the params dict (e.g. src/main.py lines 104-110). -/
inductive ParamVal where
  | str (s : String)
  | int (n : Int)
deriving DecidableEq

/-- The `HTTPException(status_code=..., detail=...)` raised by the gateway
(src/main.py lines 61, 64, 67, 70, 73). -/
structure HTTPException where
  status_code : Nat
  detail : String

/-- Outcome of the single `requests.get` call (src/main.py line 53): either an
HTTP response carrying its status code, its body text, and the result of
attempting to parse that body as JSON (`response.json()`, which fails with a
decode-error message when the body is not valid JSON), or a network-level
`requests.RequestException` carrying its message (DNS failure, timeout,
connection refused). -/
inductive UpstreamResult where
  | response (status : Nat) (text : String) (json : Except String Json)
  | requestError (msg : String)

/-- src/main.py line 33: the process-wide default credential.
`os.getenv("BIRDEYE_API_KEY", ...)` with the environment variable unset
yields this hard-coded fallback. -/
def API_KEY : String := "63171bd11b984f239e042b0b169463a4"

/-- src/main.py line 34: the fixed upstream base URL. -/
def BASE_URL : String := "https://public-api.birdeye.so"

/-- Python's `a or b` on an `Optional[str]` left operand (src/main.py line 44):
both `None` and the empty string are falsy, so either falls through to `b`. -/
def pyOr (a : Option String) (b : String) : String :=
  match a with
  | some s => if s = "" then b else s
  | none => b

/-- The outbound GET request as built at src/main.py lines 42-53:
URL is the base URL concatenated with the endpoint path, the query params are
forwarded as given, and the headers are the credential header (override if
truthy, else the process default) plus `Accept: application/json`.
A `params=None` call is modelled by the empty list. -/
structure OutboundRequest where
  url : String
  params : List (String × ParamVal)
  headers : List (String × String)
deriving DecidableEq

def outboundRequest (endpoint : String) (params : List (String × ParamVal))
    (api_key : Option String) : OutboundRequest :=
  { url := BASE_URL ++ endpoint
    params := params
    headers := [("X-API-KEY", pyOr api_key API_KEY), ("Accept", "application/json")] }

/-- src/main.py lines 41-73, `fetch_from_birdeye`: classify the outcome of the
single upstream GET.  Status 200 returns the parsed JSON body; 400/401/429 and
any other status raise `HTTPException` with the statuses and details of lines
59-70; the `except requests.RequestException` clause (lines 71-73) turns a
network failure — and, in requests >= 2.27, a JSON decode failure of a 200
body, since `JSONDecodeError` subclasses `RequestException` — into a 500
"Connection Error". -/
def fetch_from_birdeye (endpoint : String) (params : List (String × ParamVal))
    (api_key : Option String) (upstream : UpstreamResult) :
    Except HTTPException Json :=
  match endpoint, params, api_key, upstream with
  | _, _, _, .response status text json =>
    if status = 200 then
      match json with
      | .ok j => .ok j
      | .error msg => .error ⟨500, "❌ Connection Error: " ++ msg⟩
    else if status = 400 then
      .error ⟨400, "❌ Bad Request: " ++ text⟩
    else if status = 401 then
      .error ⟨401, "❌ Unauthorized: API key is invalid or missing"⟩
    else if status = 429 then
      .error ⟨429, "❌ Rate limit exceeded. Please try again later."⟩
    else
      .error ⟨status, "⚠ Unexpected Error: " ++ text.take 200⟩
  | _, _, _, .requestError msg => .error ⟨500, "❌ Connection Error: " ++ msg⟩

/-- The outbound GET requests one invocation of `fetch_from_birdeye` issues:
the function body contains a single `requests.get` call site (line 53),
executed exactly once per invocation, with no retry loop at any layer. -/
def fetch_from_birdeye_trace (endpoint : String) (params : List (String × ParamVal))
    (api_key : Option String) : List OutboundRequest :=
  [outboundRequest endpoint params api_key]

/-- The argument tuple a route handler hands to `fetch_from_birdeye`:
each handler body only builds an endpoint string and a params dict and
delegates to the helper. -/
structure FetchCall where
  endpoint : String
  params : List (String × ParamVal)
  api_key : Option String
deriving DecidableEq

def FetchCall.request (c : FetchCall) : OutboundRequest :=
  outboundRequest c.endpoint c.params c.api_key

def FetchCall.run (c : FetchCall) (u : UpstreamResult) : Except HTTPException Json :=
  fetch_from_birdeye c.endpoint c.params c.api_key u

/-- Python's builtin `min` on two integers, as used for clamping
(e.g. `min(limit, 100)` at src/main.py line 108). -/
def pymin (a b : Int) : Int := if a ≤ b then a else b

/-- src/main.py lines 76-81. -/
def get_token_overview (address : String) (x_api_key : Option String) : FetchCall :=
  ⟨"/defi/token_overview?address=" ++ address, [], x_api_key⟩

/-- src/main.py lines 84-89. -/
def get_token_overview_public (address : String) : FetchCall :=
  ⟨"/defi/token_overview?address=" ++ address, [], none⟩

/-- src/main.py lines 92-111. -/
def get_token_list (sort_by sort_type : String) (offset limit : Int)
    (chain_id : String) (x_api_key : Option String) : FetchCall :=
  ⟨"/defi/tokenlist",
   [("sort_by", .str sort_by), ("sort_type", .str sort_type), ("offset", .int offset),
    ("limit", .int (pymin limit 100)), ("chain_id", .str chain_id)], x_api_key⟩

/-- src/main.py lines 114-132. -/
def get_token_list_public (sort_by sort_type : String) (offset limit : Int)
    (chain_id : String) : FetchCall :=
  ⟨"/defi/tokenlist",
   [("sort_by", .str sort_by), ("sort_type", .str sort_type), ("offset", .int offset),
    ("limit", .int (pymin limit 100)), ("chain_id", .str chain_id)], none⟩

/-- src/main.py lines 135-140. -/
def get_token_security (address : String) (x_api_key : Option String) : FetchCall :=
  ⟨"/defi/token_security?address=" ++ address, [], x_api_key⟩

/-- src/main.py lines 143-148. -/
def get_token_security_public (address : String) : FetchCall :=
  ⟨"/defi/token_security?address=" ++ address, [], none⟩

/-- src/main.py lines 151-156. -/
def get_token_creation_info (address : String) (x_api_key : Option String) : FetchCall :=
  ⟨"/defi/token_creation_info?address=" ++ address, [], x_api_key⟩

/-- src/main.py lines 159-164. -/
def get_token_creation_info_public (address : String) : FetchCall :=
  ⟨"/defi/token_creation_info?address=" ++ address, [], none⟩

/-- src/main.py lines 167-182. -/
def get_new_token_listings (count offset : Int) (chain_id : String)
    (x_api_key : Option String) : FetchCall :=
  ⟨"/defi/v2/tokens/new_listing",
   [("count", .int (pymin count 100)), ("offset", .int offset),
    ("chain_id", .str chain_id)], x_api_key⟩

/-- src/main.py lines 185-199. -/
def get_new_token_listings_public (count offset : Int) (chain_id : String) : FetchCall :=
  ⟨"/defi/v2/tokens/new_listing",
   [("count", .int (pymin count 100)), ("offset", .int offset),
    ("chain_id", .str chain_id)], none⟩

/-- src/main.py lines 202-221. -/
def get_markets (count offset : Int) (sort_by sort_type chain_id : String)
    (x_api_key : Option String) : FetchCall :=
  ⟨"/defi/v2/markets",
   [("count", .int (pymin count 100)), ("offset", .int offset),
    ("sort_by", .str sort_by), ("sort_type", .str sort_type),
    ("chain_id", .str chain_id)], x_api_key⟩

/-- src/main.py lines 224-242. -/
def get_markets_public (count offset : Int) (sort_by sort_type chain_id : String) : FetchCall :=
  ⟨"/defi/v2/markets",
   [("count", .int (pymin count 100)), ("offset", .int offset),
    ("sort_by", .str sort_by), ("sort_type", .str sort_type),
    ("chain_id", .str chain_id)], none⟩

/-- src/main.py lines 245-255. -/
def get_token_price (address chain_id : String) (x_api_key : Option String) : FetchCall :=
  ⟨"/defi/price?address=" ++ address, [("chain_id", .str chain_id)], x_api_key⟩

/-- src/main.py lines 258-267. -/
def get_token_price_public (address chain_id : String) : FetchCall :=
  ⟨"/defi/price?address=" ++ address, [("chain_id", .str chain_id)], none⟩

/-- src/main.py lines 270-284. -/
def get_token_price_history (address type chain_id : String)
    (x_api_key : Option String) : FetchCall :=
  ⟨"/defi/price_history?address=" ++ address,
   [("type", .str type), ("chain_id", .str chain_id)], x_api_key⟩

/-- src/main.py lines 287-300. -/
def get_token_price_history_public (address type chain_id : String) : FetchCall :=
  ⟨"/defi/price_history?address=" ++ address,
   [("type", .str type), ("chain_id", .str chain_id)], none⟩

/-- src/main.py lines 303-319. -/
def get_token_holders (address : String) (offset limit : Int) (chain_id : String)
    (x_api_key : Option String) : FetchCall :=
  ⟨"/defi/token_holders?address=" ++ address,
   [("offset", .int offset), ("limit", .int (pymin limit 100)),
    ("chain_id", .str chain_id)], x_api_key⟩

/-- src/main.py lines 322-337. -/
def get_token_holders_public (address : String) (offset limit : Int)
    (chain_id : String) : FetchCall :=
  ⟨"/defi/token_holders?address=" ++ address,
   [("offset", .int offset), ("limit", .int (pymin limit 100)),
    ("chain_id", .str chain_id)], none⟩

/-- src/main.py lines 340-353. -/
def get_trending_tokens (count : Int) (chain_id : String)
    (x_api_key : Option String) : FetchCall :=
  ⟨"/defi/trending_tokens",
   [("count", .int (pymin count 100)), ("chain_id", .str chain_id)], x_api_key⟩

/-- src/main.py lines 356-368. -/
def get_trending_tokens_public (count : Int) (chain_id : String) : FetchCall :=
  ⟨"/defi/trending_tokens",
   [("count", .int (pymin count 100)), ("chain_id", .str chain_id)], none⟩

/-- Modelled from the spec: the Rate Gate's process-wide state, a window-start
timestamp and a count-in-window (spec section 3, "Rate Counter"; section 4.2).
The rate gate is present only in sibling variants of this repository and is
absent from src/main.py, so it is modelled from the spec's words.
Timestamps are in whole seconds. -/
structure RateCounter where
  windowStart : Nat
  count : Nat
deriving DecidableEq

/-- Modelled from the spec: the configured budget of forwarding calls per
one-second window (spec section 4.2: "10/second in both variants that
implement this"). -/
def rateBudget : Nat := 10

/-- Modelled from the spec (section 4.2): on each forwarding attempt, if the
elapsed time since window-start exceeds one second, reset window-start to now
and count to 1 and allow the call; otherwise increment the count, and flag the
call as over-budget when the post-increment count exceeds the budget.
Returns the updated counter and the over-budget flag. -/
def rateGateStep (rc : RateCounter) (now : Nat) : RateCounter × Bool :=
  if 1 < now - rc.windowStart then
    (⟨now, 1⟩, false)
  else if rateBudget < rc.count + 1 then
    (⟨rc.windowStart, rc.count + 1⟩, true)
  else
    (⟨rc.windowStart, rc.count + 1⟩, false)

/-- Modelled from the spec: a sequence of forwarding attempts at the given
timestamps, threading the Rate Counter through and collecting the over-budget
flag of each attempt. -/
def rateGateRun (rc : RateCounter) (times : List Nat) : RateCounter × List Bool :=
  match times with
  | [] => (rc, [])
  | t :: ts =>
    let s := rateGateStep rc t
    let r := rateGateRun s.1 ts
    (r.1, s.2 :: r.2)

/-- Modelled from the spec (section 4.2): the over-budget mitigation blocks the
calling thread for a fixed one second and then proceeds with the forwarded
call anyway.  Returns the updated counter, the delay incurred in seconds, and
the forwarded call's outcome. -/
def gatedFetch (rc : RateCounter) (now : Nat) (c : FetchCall) (u : UpstreamResult) :
    RateCounter × Nat × Except HTTPException Json :=
  let s := rateGateStep rc now
  (s.1, (if s.2 then 1 else 0), c.run u)

/-- Helper: clamping from above by 100, the over-budget case. -/
theorem pymin_of_gt {a : Int} (h : 100 < a) : pymin a 100 = 100 := by
  unfold pymin
  rw [if_neg (by omega)]

/-- Helper: clamping from above by 100, the within-budget case. -/
theorem pymin_of_le {a : Int} (h : a ≤ 100) : pymin a 100 = a := by
  unfold pymin
  rw [if_pos h]

/-- C1: for every endpoint operation (every argument tuple a handler can hand
to the forwarder), an upstream HTTP 200 response whose body parses as JSON
makes the gateway return that parsed JSON body verbatim, with no field
renamed, added, or removed. -/
theorem C1_passthrough_identity (c : FetchCall) (text : String) (j : Json) :
    c.run (.response 200 text (.ok j)) = .ok j := by
  cases c
  simp [FetchCall.run, fetch_from_birdeye]

/-- C8: the forwarder returns a value normally if and only if the upstream
outcome is an HTTP 200 response whose body parses as JSON; in every other case
(non-200 status, network failure, or a 200 response whose body is not valid
JSON) it raises an exception and returns nothing to the caller. -/
theorem C8_returns_iff_200_json (e : String) (p : List (String × ParamVal))
    (k : Option String) (u : UpstreamResult) :
    (∃ j, fetch_from_birdeye e p k u = .ok j) ↔
      (∃ text j, u = .response 200 text (.ok j)) := by
  cases u with
  | requestError msg => simp [fetch_from_birdeye]
  | response status text js =>
    by_cases hs : status = 200
    · subst hs
      cases js with
      | ok j => simp [fetch_from_birdeye]
      | error msg => simp [fetch_from_birdeye]
    · cases js with
      | ok j =>
        simp only [fetch_from_birdeye, if_neg hs]
        by_cases h4 : status = 400 <;> by_cases h1 : status = 401 <;>
          by_cases h9 : status = 429 <;>
          simp [h4, h1, h9, hs]
      | error msg =>
        simp only [fetch_from_birdeye, if_neg hs]
        by_cases h4 : status = 400 <;> by_cases h1 : status = 401 <;>
          by_cases h9 : status = 429 <;>
          simp [h4, h1, h9, hs]

/-- C5: every network-level failure of the outbound call makes the forwarder
raise an HTTPException of the connection-error category with status 500
(detail "Connection Error" plus the exception's message), and the forwarder
issues exactly one GET — a single failed attempt is terminal, no retry. -/
theorem C5_network_failure_500 (e : String) (p : List (String × ParamVal))
    (k : Option String) (msg : String) :
    fetch_from_birdeye e p k (.requestError msg) =
      .error ⟨500, "❌ Connection Error: " ++ msg⟩ ∧
    (fetch_from_birdeye_trace e p k).length = 1 := by
  exact ⟨rfl, rfl⟩

/-- C2: for every endpoint taking a limit or count query parameter
(token list, new listings, markets, holders, trending), the value forwarded
upstream is the requested value clamped to the per-endpoint maximum of 100:
a requested value strictly greater than 100 is forwarded as exactly 100, and a
requested value of at most 100 is forwarded unchanged. -/
theorem C2_limit_count_clamped (sort_by sort_type chain_id address : String)
    (offset limit count : Int) (k : Option String) :
    ((100 < limit →
      (get_token_list sort_by sort_type offset limit chain_id k).params =
        [("sort_by", .str sort_by), ("sort_type", .str sort_type),
         ("offset", .int offset), ("limit", .int 100), ("chain_id", .str chain_id)]) ∧
     (limit ≤ 100 →
      (get_token_list sort_by sort_type offset limit chain_id k).params =
        [("sort_by", .str sort_by), ("sort_type", .str sort_type),
         ("offset", .int offset), ("limit", .int limit), ("chain_id", .str chain_id)])) ∧
    ((100 < count →
      (get_new_token_listings count offset chain_id k).params =
        [("count", .int 100), ("offset", .int offset), ("chain_id", .str chain_id)]) ∧
     (count ≤ 100 →
      (get_new_token_listings count offset chain_id k).params =
        [("count", .int count), ("offset", .int offset), ("chain_id", .str chain_id)])) ∧
    ((100 < count →
      (get_markets count offset sort_by sort_type chain_id k).params =
        [("count", .int 100), ("offset", .int offset), ("sort_by", .str sort_by),
         ("sort_type", .str sort_type), ("chain_id", .str chain_id)]) ∧
     (count ≤ 100 →
      (get_markets count offset sort_by sort_type chain_id k).params =
        [("count", .int count), ("offset", .int offset), ("sort_by", .str sort_by),
         ("sort_type", .str sort_type), ("chain_id", .str chain_id)])) ∧
    ((100 < limit →
      (get_token_holders address offset limit chain_id k).params =
        [("offset", .int offset), ("limit", .int 100), ("chain_id", .str chain_id)]) ∧
     (limit ≤ 100 →
      (get_token_holders address offset limit chain_id k).params =
        [("offset", .int offset), ("limit", .int limit), ("chain_id", .str chain_id)])) ∧
    ((100 < count →
      (get_trending_tokens count chain_id k).params =
        [("count", .int 100), ("chain_id", .str chain_id)]) ∧
     (count ≤ 100 →
      (get_trending_tokens count chain_id k).params =
        [("count", .int count), ("chain_id", .str chain_id)])) := by
  refine ⟨⟨?_, ?_⟩, ⟨?_, ?_⟩, ⟨?_, ?_⟩, ⟨?_, ?_⟩, ⟨?_, ?_⟩⟩ <;> intro h <;>
    first
    | simp [get_token_list, get_new_token_listings, get_markets, get_token_holders,
        get_trending_tokens, pymin_of_gt h]
    | simp [get_token_list, get_new_token_listings, get_markets, get_token_holders,
        get_trending_tokens, pymin_of_le h]

/-- C2 witness: the clamping theorem applied at requested values 150
(over the maximum) and 7 (within the maximum). -/
theorem C2_limit_count_clamped_witness :
    (get_token_list "mc" "d" 0 150 "solana" Option.none).params =
      [("sort_by", .str "mc"), ("sort_type", .str "d"), ("offset", .int 0),
       ("limit", .int 100), ("chain_id", .str "solana")] ∧
    (get_token_list "mc" "d" 0 7 "solana" Option.none).params =
      [("sort_by", .str "mc"), ("sort_type", .str "d"), ("offset", .int 0),
       ("limit", .int 7), ("chain_id", .str "solana")] ∧
    (get_new_token_listings 150 0 "solana" Option.none).params =
      [("count", .int 100), ("offset", .int 0), ("chain_id", .str "solana")] ∧
    (get_new_token_listings 7 0 "solana" Option.none).params =
      [("count", .int 7), ("offset", .int 0), ("chain_id", .str "solana")] ∧
    (get_markets 150 0 "v24hUSD" "d" "solana" Option.none).params =
      [("count", .int 100), ("offset", .int 0), ("sort_by", .str "v24hUSD"),
       ("sort_type", .str "d"), ("chain_id", .str "solana")] ∧
    (get_markets 7 0 "v24hUSD" "d" "solana" Option.none).params =
      [("count", .int 7), ("offset", .int 0), ("sort_by", .str "v24hUSD"),
       ("sort_type", .str "d"), ("chain_id", .str "solana")] ∧
    (get_token_holders "addr" 0 150 "solana" Option.none).params =
      [("offset", .int 0), ("limit", .int 100), ("chain_id", .str "solana")] ∧
    (get_token_holders "addr" 0 7 "solana" Option.none).params =
      [("offset", .int 0), ("limit", .int 7), ("chain_id", .str "solana")] ∧
    (get_trending_tokens 150 "solana" Option.none).params =
      [("count", .int 100), ("chain_id", .str "solana")] ∧
    (get_trending_tokens 7 "solana" Option.none).params =
      [("count", .int 7), ("chain_id", .str "solana")] :=
  ⟨(C2_limit_count_clamped "mc" "d" "solana" "addr" 0 150 150 Option.none).1.1 (by decide),
   (C2_limit_count_clamped "mc" "d" "solana" "addr" 0 7 7 Option.none).1.2 (by decide),
   (C2_limit_count_clamped "mc" "d" "solana" "addr" 0 150 150 Option.none).2.1.1 (by decide),
   (C2_limit_count_clamped "mc" "d" "solana" "addr" 0 7 7 Option.none).2.1.2 (by decide),
   (C2_limit_count_clamped "v24hUSD" "d" "solana" "addr" 0 150 150 Option.none).2.2.1.1 (by decide),
   (C2_limit_count_clamped "v24hUSD" "d" "solana" "addr" 0 7 7 Option.none).2.2.1.2 (by decide),
   (C2_limit_count_clamped "mc" "d" "solana" "addr" 0 150 150 Option.none).2.2.2.1.1 (by decide),
   (C2_limit_count_clamped "mc" "d" "solana" "addr" 0 7 7 Option.none).2.2.2.1.2 (by decide),
   (C2_limit_count_clamped "mc" "d" "solana" "addr" 0 150 150 Option.none).2.2.2.2.1 (by decide),
   (C2_limit_count_clamped "mc" "d" "solana" "addr" 0 7 7 Option.none).2.2.2.2.2 (by decide)⟩

/-- C3: every upstream response with a non-200 status makes the forwarder raise
an HTTPException whose status code equals the upstream status code (400 to
400, 401 to 401, 429 to 429, any other status to that same status), and whose
detail carries the upstream body text truncated to 200 characters for statuses
outside 400, 401 and 429. -/
theorem C3_non_200_typed_failure (e : String) (p : List (String × ParamVal))
    (k : Option String) (status : Nat) (text : String) (js : Except String Json)
    (h : status ≠ 200) :
    ∃ err : HTTPException,
      fetch_from_birdeye e p k (.response status text js) = .error err ∧
      err.status_code = status ∧
      (status ≠ 400 → status ≠ 401 → status ≠ 429 →
        err.detail = "⚠ Unexpected Error: " ++ text.take 200) := by
  by_cases h4 : status = 400
  · subst h4
    exact ⟨⟨400, "❌ Bad Request: " ++ text⟩, rfl, rfl, fun hc _ _ => absurd rfl hc⟩
  · by_cases h1 : status = 401
    · subst h1
      exact ⟨⟨401, "❌ Unauthorized: API key is invalid or missing"⟩, rfl, rfl,
        fun _ hc _ => absurd rfl hc⟩
    · by_cases h9 : status = 429
      · subst h9
        exact ⟨⟨429, "❌ Rate limit exceeded. Please try again later."⟩, rfl, rfl,
          fun _ _ hc => absurd rfl hc⟩
      · refine ⟨⟨status, "⚠ Unexpected Error: " ++ text.take 200⟩, ?_, rfl,
          fun _ _ _ => rfl⟩
        simp [fetch_from_birdeye, h, h4, h1, h9]

/-- C3 witness: the non-200 classification theorem applied to a 404 response
with body "boom". -/
theorem C3_non_200_typed_failure_witness :
    ∃ err : HTTPException,
      fetch_from_birdeye "/defi/tokenlist" [] Option.none
          (.response 404 "boom" (.error "decode")) = .error err ∧
      err.status_code = 404 ∧
      (404 ≠ 400 → 404 ≠ 401 → 404 ≠ 429 →
        err.detail = "⚠ Unexpected Error: " ++ "boom".take 200) :=
  C3_non_200_typed_failure "/defi/tokenlist" [] Option.none 404 "boom"
    (.error "decode") (by decide)

/-- C4 counterexample: the upstream message is not preserved on a 401.  Two 401
responses with different bodies produce the same gateway error, whose detail is
the fixed string of src/main.py line 64 and does not contain the upstream body
text. -/
theorem C4_counterexample_fixed_detail :
    fetch_from_birdeye "/defi/tokenlist" [] Option.none
        (.response 401 "token expired abc123" (.error "decode")) =
      .error ⟨401, "❌ Unauthorized: API key is invalid or missing"⟩ ∧
    fetch_from_birdeye "/defi/tokenlist" [] Option.none
        (.response 401 "some other body" (.error "decode")) =
      .error ⟨401, "❌ Unauthorized: API key is invalid or missing"⟩ ∧
    ("token expired abc123" : String) ≠ "some other body" ∧
    ¬ List.IsInfix "token expired abc123".toList
        "❌ Unauthorized: API key is invalid or missing".toList :=
  ⟨rfl, rfl, by decide, by decide⟩

/-- C4 amended: an upstream 401 response makes the gateway report 401 to the
caller, with the fixed detail "Unauthorized: API key is invalid or missing";
the upstream response's body is discarded, not preserved in the detail. -/
theorem C4_upstream_401 (e : String) (p : List (String × ParamVal))
    (k : Option String) (text : String) (js : Except String Json) :
    fetch_from_birdeye e p k (.response 401 text js) =
      .error ⟨401, "❌ Unauthorized: API key is invalid or missing"⟩ := by
  simp [fetch_from_birdeye]

/-- C6 counterexample: the credential header is not always the supplied
override.  With the override supplied as the empty string, the outbound
request carries the process-wide default credential, which differs from the
supplied override (Python's "api_key or API_KEY" at src/main.py line 44
treats the empty string as falsy). -/
theorem C6_counterexample_empty_override :
    List.lookup "X-API-KEY"
        (outboundRequest "/defi/tokenlist" [] (Option.some "")).headers =
      Option.some API_KEY ∧
    API_KEY ≠ "" :=
  ⟨rfl, by decide⟩

/-- C6 amended: for every invocation of the forwarder, the outbound URL is the
fixed base URL concatenated with the given path, the query params are
forwarded as given, the X-API-KEY header is the supplied override when a
non-empty override is supplied and otherwise the process-wide default
credential, an Accept application/json header is attached, and exactly one
synchronous GET is issued. -/
theorem C6_request_construction (e : String) (p : List (String × ParamVal))
    (k : Option String) :
    (outboundRequest e p k).url = BASE_URL ++ e ∧
    (outboundRequest e p k).params = p ∧
    (∀ s, k = some s → s ≠ "" →
      (outboundRequest e p k).headers =
        [("X-API-KEY", s), ("Accept", "application/json")]) ∧
    ((k = none ∨ k = some "") →
      (outboundRequest e p k).headers =
        [("X-API-KEY", API_KEY), ("Accept", "application/json")]) ∧
    fetch_from_birdeye_trace e p k = [outboundRequest e p k] ∧
    (fetch_from_birdeye_trace e p k).length = 1 := by
  refine ⟨rfl, rfl, ?_, ?_, rfl, rfl⟩
  · intro s hk hs
    subst hk
    simp [outboundRequest, pyOr, hs]
  · rintro (hk | hk) <;> subst hk <;> simp [outboundRequest, pyOr]

/-- C6 witness: the request-construction theorem applied with a non-empty
override and with no override. -/
theorem C6_request_construction_witness :
    (outboundRequest "/defi/tokenlist" [] (Option.some "mykey")).headers =
      [("X-API-KEY", "mykey"), ("Accept", "application/json")] ∧
    (outboundRequest "/defi/tokenlist" [] Option.none).headers =
      [("X-API-KEY", API_KEY), ("Accept", "application/json")] :=
  ⟨(C6_request_construction "/defi/tokenlist" [] (Option.some "mykey")).2.2.1
      "mykey" rfl (by decide),
   (C6_request_construction "/defi/tokenlist" [] Option.none).2.2.2.1 (Or.inl rfl)⟩

/-- C9: supplying the x_api_key header with an empty-string value makes the
outbound request carry the process-default API key, not the empty override —
the override takes effect only when non-empty.  Stated for the forwarder over
every endpoint and params (covering every authenticated endpoint, which all
pass the header through unchanged), and instantiated on the token-overview
handler. -/
theorem C9_empty_override_uses_default (e : String) (p : List (String × ParamVal))
    (address : String) :
    outboundRequest e p (Option.some "") = outboundRequest e p Option.none ∧
    List.lookup "X-API-KEY" (outboundRequest e p (Option.some "")).headers =
      Option.some API_KEY ∧
    (get_token_overview address (Option.some "")).request =
      (get_token_overview address Option.none).request := by
  exact ⟨rfl, rfl, rfl⟩

/-- C10: every public twin route is observationally equal to its authenticated
sibling invoked with the x_api_key header absent — for all query and path
inputs the two handlers hand the forwarder identical argument tuples, hence
build the same upstream request and return or raise the same result for every
upstream behaviour. -/
theorem C10_public_twins_equal (address sort_by sort_type type chain_id : String)
    (offset limit count : Int) :
    get_token_overview address Option.none = get_token_overview_public address ∧
    get_token_list sort_by sort_type offset limit chain_id Option.none =
      get_token_list_public sort_by sort_type offset limit chain_id ∧
    get_token_security address Option.none = get_token_security_public address ∧
    get_token_creation_info address Option.none =
      get_token_creation_info_public address ∧
    get_new_token_listings count offset chain_id Option.none =
      get_new_token_listings_public count offset chain_id ∧
    get_markets count offset sort_by sort_type chain_id Option.none =
      get_markets_public count offset sort_by sort_type chain_id ∧
    get_token_price address chain_id Option.none =
      get_token_price_public address chain_id ∧
    get_token_price_history address type chain_id Option.none =
      get_token_price_history_public address type chain_id ∧
    get_token_holders address offset limit chain_id Option.none =
      get_token_holders_public address offset limit chain_id ∧
    get_trending_tokens count chain_id Option.none =
      get_trending_tokens_public count chain_id := by
  exact ⟨rfl, rfl, rfl, rfl, rfl, rfl, rfl, rfl, rfl, rfl⟩

/-- C7: eleven forwarding calls within the same one-second window leave the
first ten undelayed and make the eleventh incur the one-second delay; the
counter's count never exceeds the budget without the over-budget mitigation
firing; and a delayed call still completes successfully when the upstream is
healthy, returning the parsed JSON body. -/
theorem C7_rate_gate (t : Nat) (c : FetchCall) (text : String) (j : Json) :
    (rateGateRun ⟨t, 0⟩ (List.replicate 11 t)).2 =
      List.replicate 10 false ++ [true] ∧
    (∀ rc now, rateBudget < ((rateGateStep rc now).1).count →
      (rateGateStep rc now).2 = true) ∧
    (∀ rc now, (gatedFetch rc now c (.response 200 text (.ok j))).2.2 = .ok j) ∧
    (∀ rc now, (rateGateStep rc now).2 = true →
      (gatedFetch rc now c (.response 200 text (.ok j))).2.1 = 1) := by
  refine ⟨?_, ?_, ?_, ?_⟩
  · simp [rateGateRun, rateGateStep, rateBudget, List.replicate, Nat.sub_self]
  · intro rc now h
    unfold rateGateStep at h ⊢
    by_cases hw : 1 < now - rc.windowStart
    · rw [if_pos hw] at h
      exact absurd h (by simp [rateBudget])
    · rw [if_neg hw] at h ⊢
      by_cases hb : rateBudget < rc.count + 1
      · rw [if_pos hb]
      · rw [if_neg hb] at h
        exact absurd h hb
  · intro rc now
    cases c
    simp [gatedFetch, FetchCall.run, fetch_from_birdeye]
  · intro rc now h
    simp [gatedFetch, h]

/-- C7 witness: the rate-gate theorem applied at window start 0 to a concrete
over-budget counter and a healthy upstream. -/
theorem C7_rate_gate_witness :
    (rateGateStep ⟨0, 10⟩ 0).2 = true ∧
    (gatedFetch ⟨0, 0⟩ 0 ⟨"/defi/tokenlist", [], Option.none⟩
        (.response 200 "null" (.ok Json.null))).2.2 = .ok Json.null :=
  ⟨(C7_rate_gate 0 ⟨"/defi/tokenlist", [], Option.none⟩ "null" Json.null).2.1
      ⟨0, 10⟩ 0 (by decide),
   (C7_rate_gate 0 ⟨"/defi/tokenlist", [], Option.none⟩ "null" Json.null).2.2.1
      ⟨0, 0⟩ 0⟩

end Birdeye
